import Mathlib

/-!
Verification development for the eew4reso alert pipeline.

The definitions below are a shallow embedding of the TypeScript sources:
`src/parser/eew-parser.ts` (line normalization, severity scoring, update
significance), `src/utils/type-guards.ts` (payload guards) and
`src/services/eew-posting-service.ts` (policy filtering and the rate-limited
delivery queue).  JavaScript numbers are modelled as rationals (`ℚ`) and
integer timestamps as `Int`; `JSON.parse` is an external platform primitive,
so a raw inbound line is modelled by the outcome of that call (blank line,
malformed text, or a parsed JSON value).
-/

namespace EEW4Reso

/-- Model of a parsed JSON value, as produced by `JSON.parse`.  Object fields
are an association list; field access takes the first binding. -/
inductive Json where
  | null : Json
  | bool (b : Bool) : Json
  | num (q : ℚ) : Json
  | str (s : String) : Json
  | arr (elems : List Json) : Json
  | obj (fields : List (String × Json)) : Json
deriving Repr

/-- JavaScript property access `v.k`: defined on objects, `undefined`
(here `none`) on anything else.  (On `null` the source would throw, but the
access sites modelled here sit inside a `try`/`catch` that converts the throw
into the same rejection as a missing field.) -/
def getField (v : Json) (k : String) : Option Json :=
  match v with
  | .obj fields => fields.lookup k
  | _ => none

/-- JavaScript truthiness of a JSON value: `null`, `false`, `0` and the empty
string are falsy; arrays and objects are always truthy. -/
def truthy : Json → Bool
  | .null => false
  | .bool b => b
  | .num q => decide (q ≠ 0)
  | .str s => decide (s ≠ "")
  | .arr _ => true
  | .obj _ => true

/-- Truthiness of a possibly-absent value (`undefined` is falsy). -/
def truthyOpt : Option Json → Bool
  | none => false
  | some j => truthy j

/-- One raw inbound line, classified by the outcome of the external
`line.trim()` / `JSON.parse` steps: blank after trimming, text that is not
valid JSON (`JSON.parse` throws), or a successfully parsed JSON value. -/
inductive RawLine where
  | blank : RawLine
  | malformed : RawLine
  | value (v : Json) : RawLine

/-- The rejection condition of `parseLine`
(`data.type !== 'eew' || !data.timestamp || !data.data`). -/
def invalidStructure (data : Json) : Bool :=
  !(match getField data "type" with
    | some (.str s) => s == "eew"
    | _ => false)
  || !truthyOpt (getField data "timestamp")
  || !truthyOpt (getField data "data")

/-- `EEWParser.parseLine` (src/parser/eew-parser.ts:10-30).  A blank line and
malformed JSON return `null`; a parsed value is returned as-is when
`data.type === 'eew'` and `data.timestamp` and `data.data` are truthy, with no
further validation of the `data` field; otherwise `null`. -/
def parseLine (line : RawLine) : Option Json :=
  match line with
  | .blank => none
  | .malformed => none
  | .value data =>
    if invalidStructure data then none else some data

/-- `EEWParser.parseString` (src/parser/eew-parser.ts:57-69): parse each line
independently, keeping the successful parses in order. -/
def parseString (lines : List RawLine) : List Json :=
  lines.filterMap parseLine

/-- `hasEEWBotData` (src/utils/type-guards.ts:25-27):
`typeof message.data === 'string' && !!message.eewbot`. -/
def hasEEWBotData (message : Json) : Bool :=
  (match getField message "data" with
   | some (.str _) => true
   | _ => false)
  && truthyOpt (getField message "eewbot")

/-- The structure check of `parseLine`, written as a proposition: the parsed
value carries `type: "eew"` together with truthy `timestamp` and `data`
fields. -/
def validEnvelope (v : Json) : Prop :=
  getField v "type" = some (.str "eew")
  ∧ truthyOpt (getField v "timestamp") = true
  ∧ truthyOpt (getField v "data") = true

/-!
## Typed alert model

Embedding of the `EEWData` shape from `src/types/eew.ts`, restricted to the
fields read by the scoring, significance and posting logic.  Numeric strings
(`magnitude.value`, parsed with `parseFloat`; `depth.value`, parsed with
`parseInt`) are stored as their numeric readings, and display-only fields
(`kind`, coordinates, accuracy, comments, long-period intensity) are omitted
because no embedded operation reads them.
-/

/-- `Magnitude` (src/types/eew.ts): the numeric reading of `value`. -/
structure MagnitudeV where
  value : ℚ
deriving DecidableEq, Repr

/-- `Depth` inside `Hypocenter`: the numeric reading of `value` (km). -/
structure DepthV where
  value : Int
deriving DecidableEq, Repr

/-- `Hypocenter` fields read by the pipeline. -/
structure Hypocenter where
  name : String
  depth : DepthV
  landOrSea : String
deriving DecidableEq, Repr

/-- `Earthquake` fields read by the pipeline. -/
structure Earthquake where
  originTime : String
  hypocenter : Hypocenter
  magnitude : MagnitudeV
deriving DecidableEq, Repr

/-- A `code`/`name` pair (used for `zones`, `prefectures`, `regions`). -/
structure CodeName where
  code : String
  name : String
deriving DecidableEq, Repr

/-- `IntensityRange`: the `from`/`to` bounds (`from` and `to` are Lean
keywords, hence the trailing underscores). -/
structure IntensityRange where
  from_ : String
  to_ : String
deriving DecidableEq, Repr

/-- `IntensityRegion` fields read by the pipeline. -/
structure IntensityRegion where
  code : String
  name : String
  isWarning : Bool
  forecastMaxInt : IntensityRange
  condition : Option String
deriving DecidableEq, Repr

/-- `Intensity`: forecast maximum intensity plus the per-region list
(`regions` is a required field of `Intensity` in the source, so an alert with
an intensity section always has a — possibly empty — region list). -/
structure Intensity where
  forecastMaxInt : IntensityRange
  regions : List IntensityRegion
deriving DecidableEq, Repr

/-- `EEWData` (src/types/eew.ts:32-43), the canonical alert body. -/
structure EEWData where
  isLastInfo : Bool
  isCanceled : Bool
  isWarning : Bool
  zones : Option (List CodeName)
  prefectures : Option (List CodeName)
  regions : Option (List CodeName)
  earthquake : Option Earthquake
  intensity : Option Intensity
  text : Option String
deriving DecidableEq, Repr

/-- `EEWMessage` with a standard (object) data payload, as handled by the
posting service. -/
structure EEWMessage where
  timestamp : Int
  data : EEWData
deriving DecidableEq, Repr

/-!
## `EEWParser.extractKeyInfo`, severity and significance
-/

/-- The earthquake part of `extractKeyInfo`: numeric magnitude and depth. -/
structure KeyEarthquake where
  magnitude : ℚ
  depth : Int
deriving DecidableEq, Repr

/-- The `affectedAreas` part of `extractKeyInfo` (absent lists become `[]`). -/
structure KeyAffectedAreas where
  zones : List CodeName
  prefectures : List CodeName
  regions : List CodeName
deriving DecidableEq, Repr

/-- The part of `extractKeyInfo`'s result read by `shouldPost`. -/
structure KeyInfo where
  isWarning : Bool
  isCanceled : Bool
  isLastInfo : Bool
  earthquake : Option KeyEarthquake
  maxIntensity : Option IntensityRange
  warningRegions : List IntensityRegion
  affectedAreas : KeyAffectedAreas
deriving DecidableEq, Repr

/-- `EEWParser.extractKeyInfo` (src/parser/eew-parser.ts:74-122), restricted
to the fields consumed downstream. -/
def extractKeyInfo (d : EEWData) : KeyInfo where
  isWarning := d.isWarning
  isCanceled := d.isCanceled
  isLastInfo := d.isLastInfo
  earthquake := d.earthquake.map fun e =>
    { magnitude := e.magnitude.value, depth := e.hypocenter.depth.value }
  maxIntensity := d.intensity.map fun i => i.forecastMaxInt
  warningRegions :=
    match d.intensity with
    | some i => i.regions.filter (·.isWarning)
    | none => []
  affectedAreas :=
    { zones := d.zones.getD []
      prefectures := d.prefectures.getD []
      regions := d.regions.getD [] }

/-- The fixed intensity weight table of `getSeverityLevel`
(src/parser/eew-parser.ts:191-200); `intensityMap[to] || 0` makes any string
outside the table weigh 0. -/
def intensityMap (s : String) : ℚ :=
  if s = "2" then 2
  else if s = "3" then 3
  else if s = "4" then 4
  else if s = "5-" then 5
  else if s = "5+" then 5.5
  else if s = "6-" then 6
  else if s = "6+" then 6.5
  else if s = "7" then 7
  else 0

/-- `EEWParser.getSeverityLevel` (src/parser/eew-parser.ts:188-212):
0 for a canceled alert, else `weight(to) * 10 + magnitude` with weight 0 for
an absent intensity and magnitude 0 for an absent earthquake.  (The source
guards `forecastMaxInt.to` for truthiness; an empty string is falsy there and
also weighs 0 in the table, so the two coincide.) -/
def getSeverityLevel (d : EEWData) : ℚ :=
  if d.isCanceled then 0
  else
    let maxIntensity : ℚ :=
      match d.intensity with
      | some i => if i.forecastMaxInt.to_ ≠ "" then intensityMap i.forecastMaxInt.to_ else 0
      | none => 0
    let magnitude : ℚ :=
      match d.earthquake with
      | some e => e.magnitude.value
      | none => 0
    maxIntensity * 10 + magnitude

/-- The warned region codes of an intensity section: codes of the regions
whose `isWarning` flag is set (the source builds a `Set` of them; membership
is all that is ever used). -/
def warningRegionCodes (i : Intensity) : List String :=
  (i.regions.filter (·.isWarning)).map (·.code)

/-- `EEWParser.isSignificantUpdate` (src/parser/eew-parser.ts:127-172).
True when there is no previous alert; when the canceled or warning flag
differs; when both alerts carry an earthquake and the magnitudes differ by at
least 0.2; when both alerts carry an intensity section and a bound of
`forecastMaxInt` differs; or when both carry an intensity section and a
warned region code of `current` is absent from the warned set of `previous`.
Otherwise false. -/
def isSignificantUpdate (current : EEWData) (previous : Option EEWData) : Bool :=
  match previous with
  | none => true
  | some previous =>
    if current.isCanceled != previous.isCanceled then true
    else if current.isWarning != previous.isWarning then true
    else if (match current.earthquake, previous.earthquake with
             | some ce, some pe =>
               decide ((0.2 : ℚ) ≤ |ce.magnitude.value - pe.magnitude.value|)
             | _, _ => false) then true
    else if (match current.intensity, previous.intensity with
             | some ci, some pi =>
               ci.forecastMaxInt.from_ != pi.forecastMaxInt.from_
               || ci.forecastMaxInt.to_ != pi.forecastMaxInt.to_
             | _, _ => false) then true
    else if (match current.intensity, previous.intensity with
             | some ci, some pi =>
               (warningRegionCodes ci).any
                 (fun code => !(warningRegionCodes pi).contains code)
             | _, _ => false) then true
    else false

/-!
## `EEWPostingService`: policy filter and rate-limited delivery queue

State and configuration from `src/services/eew-posting-service.ts`.  Fields
that only affect the rendered note (visibility, content warning, template)
and the Misskey connection settings are omitted: no decision logic reads
them.  The Misskey sink (`client.createNoteWithRetry`, a collaborator missing
from the embedded sources) is abstracted as a success predicate
`sink : EEWMessage → Bool`; the current wall clock (`Date.now()`) is passed
explicitly as `now`.
-/

/-- The decision-relevant part of `PostingConfig.posting`. -/
structure PostingOptions where
  enabled : Bool
  minSeverity : ℚ
  onlyWarnings : Bool
  includeCancellations : Bool
  rateLimitMs : Int
deriving DecidableEq, Repr

/-- `PostingConfig.filters`: absent (`undefined`) options are `none`. -/
structure PostingFilters where
  minMagnitude : Option ℚ
  maxDepth : Option Int
  allowedRegions : Option (List String)
  blockedRegions : Option (List String)
deriving DecidableEq, Repr

/-- `PostingConfig`, restricted to the decision-relevant fields. -/
structure PostingConfig where
  posting : PostingOptions
  filters : PostingFilters
deriving DecidableEq, Repr

/-- `PostingState` (src/services/eew-posting-service.ts:28-33). -/
structure PostingState where
  lastPostTime : Int
  lastPostedEEW : Option EEWData
  postCount : Nat
  rateLimitQueue : List EEWMessage
deriving DecidableEq, Repr

/-- The earthquake-specific filter block of `shouldPost`
(src/services/eew-posting-service.ts:149-179), true when the alert is to be
rejected: skipped entirely (false) when there is no earthquake sub-object;
otherwise any of the four configured filters may reject.  JavaScript
truthiness makes a configured-but-zero `minMagnitude`/`maxDepth` behave as
unconfigured, while a configured empty region list stays configured (arrays
are always truthy). -/
def earthquakeFiltered (filters : PostingFilters) (keyInfo : KeyInfo) : Bool :=
  match keyInfo.earthquake with
  | none => false
  | some eq =>
    (match filters.minMagnitude with
     | some m => decide (m ≠ 0) && decide (eq.magnitude < m)
     | none => false)
    || (match filters.maxDepth with
        | some dmax => decide (dmax ≠ 0) && decide (dmax < eq.depth)
        | none => false)
    || (match filters.allowedRegions with
        | some allowed =>
          !((keyInfo.affectedAreas.regions.map (·.code)).any
             fun code => allowed.contains code)
        | none => false)
    || (match filters.blockedRegions with
        | some blocked =>
          (keyInfo.affectedAreas.regions.map (·.code)).any
            fun code => blocked.contains code
        | none => false)

/-- `EEWPostingService.shouldPost` (src/services/eew-posting-service.ts:129-187).
The `this.state.lastPostedEEW` read is passed explicitly. -/
def shouldPost (config : PostingConfig) (message : EEWMessage)
    (lastPostedEEW : Option EEWData) : Bool :=
  let data := message.data
  let keyInfo := extractKeyInfo data
  if data.isCanceled && !config.posting.includeCancellations then false
  else if config.posting.onlyWarnings && !data.isWarning && !data.isCanceled then false
  else if getSeverityLevel data < config.posting.minSeverity then false
  else if earthquakeFiltered config.filters keyInfo then false
  else
    match lastPostedEEW with
    | some last => isSignificantUpdate data (some last)
    | none => true

/-!
The recursion `postEEW` ⇄ `processQueue` of the source terminates because
every drain removes one element from `rateLimitQueue`.  It is embedded as a
single fuel-indexed, structurally recursive drain loop (so the functions
compute by reduction); the public wrappers instantiate the fuel with the
current queue length, which is always sufficient because one unit of fuel is
consumed exactly when one element is popped.  `postEEW_eq` and
`processQueue_eq` below recover the source-shaped mutual equations.
-/

/-- Fuel-indexed drain loop of `EEWPostingService.processQueue`
(src/services/eew-posting-service.ts:192-207) with the recursive call to
`postEEW` (src/services/eew-posting-service.ts:82-102) inlined: shift the
head of the queue; if the spacing from `lastPostTime` is unmet, unshift it
back to the front; otherwise attempt the sink call — on success advance the
state (`lastPostTime := now`, `lastPostedEEW`, `postCount + 1`) and keep
draining, on failure (`catch`) stop with the shifted queue. -/
def runProcessQueue (sink : EEWMessage → Bool) (rateLimitMs : Int) (now : Int) :
    Nat → PostingState → PostingState
  | 0, st => st
  | fuel + 1, st =>
    match st.rateLimitQueue with
    | [] => st
    | message :: rest =>
      if rateLimitMs ≤ now - st.lastPostTime then
        if sink message then
          runProcessQueue sink rateLimitMs now fuel
            { lastPostTime := now
              lastPostedEEW := some message.data
              postCount := st.postCount + 1
              rateLimitQueue := rest }
        else
          { st with rateLimitQueue := rest }
      else
        { st with rateLimitQueue := message :: rest }

/-- `EEWPostingService.postEEW` (src/services/eew-posting-service.ts:82-102):
on sink success advance the delivery state and process the queue, returning
`true`; on sink failure return `false` with the state untouched. -/
def postEEW (sink : EEWMessage → Bool) (rateLimitMs : Int) (now : Int)
    (message : EEWMessage) (st : PostingState) : Bool × PostingState :=
  if sink message then
    let st1 : PostingState :=
      { lastPostTime := now
        lastPostedEEW := some message.data
        postCount := st.postCount + 1
        rateLimitQueue := st.rateLimitQueue }
    (true, runProcessQueue sink rateLimitMs now st1.rateLimitQueue.length st1)
  else
    (false, st)

/-- `EEWPostingService.processQueue`, at fuel = queue length. -/
def processQueue (sink : EEWMessage → Bool) (rateLimitMs : Int) (now : Int)
    (st : PostingState) : PostingState :=
  runProcessQueue sink rateLimitMs now st.rateLimitQueue.length st

/-- `EEWPostingService.processEEW` (src/services/eew-posting-service.ts:54-77):
disabled → skip; filtered out → skip; inside the rate-limit window → append
to the tail of the queue and return `false`; otherwise attempt the post. -/
def processEEW (config : PostingConfig) (sink : EEWMessage → Bool) (now : Int)
    (message : EEWMessage) (st : PostingState) : Bool × PostingState :=
  if !config.posting.enabled then (false, st)
  else if !shouldPost config message st.lastPostedEEW then (false, st)
  else if now - st.lastPostTime < config.posting.rateLimitMs then
    (false, { st with rateLimitQueue := st.rateLimitQueue ++ [message] })
  else
    postEEW sink config.posting.rateLimitMs now message st

/-!
## Claim-side (specification) definitions
-/

/-- The claim-side validity condition on the intensity *to* bound: it is one
of the eight codes of the fixed ordinal table, or the intensity section is
absent (the data-model invariant of the spec: `IntensityCode` is drawn from a
fixed eight-value enumeration). -/
def validIntensityTo (d : EEWData) : Bool :=
  match d.intensity with
  | none => true
  | some i => ["2", "3", "4", "5-", "5+", "6-", "6+", "7"].contains i.forecastMaxInt.to_

/-- C2's claim-side weight: the *to* bound of `maxIntensity` under the fixed
8-entry table (2↦2, 3↦3, 4↦4, 5-↦5, 5+↦5.5, 6-↦6, 6+↦6.5, 7↦7), weight 0 for
an absent intensity. -/
def specIntensityWeight (d : EEWData) : ℚ :=
  match d.intensity with
  | none => 0
  | some i =>
    if i.forecastMaxInt.to_ = "2" then 2
    else if i.forecastMaxInt.to_ = "3" then 3
    else if i.forecastMaxInt.to_ = "4" then 4
    else if i.forecastMaxInt.to_ = "5-" then 5
    else if i.forecastMaxInt.to_ = "5+" then 5.5
    else if i.forecastMaxInt.to_ = "6-" then 6
    else if i.forecastMaxInt.to_ = "6+" then 6.5
    else if i.forecastMaxInt.to_ = "7" then 7
    else 0

/-- C2's claim-side magnitude contribution: the magnitude, or 0 if absent. -/
def specMagnitude (d : EEWData) : ℚ :=
  match d.earthquake with
  | some e => e.magnitude.value
  | none => 0

/-- C1's claim-side delivery predicate, stated in the claim's own words: not
a cancellation while cancellations are excluded; warnings-only implies
warning or cancellation; score at least `minSeverity`; when an earthquake
sub-object is present and the corresponding option is configured (a non-zero
bound for the numeric options, a present list for the region options), the
magnitude, depth and region conditions hold — all vacuous without an
earthquake sub-object; and a last-delivered alert, when present, makes the
update significant. -/
def shouldDeliverSpec (config : PostingConfig) (message : EEWMessage)
    (lastPostedEEW : Option EEWData) : Prop :=
  let data := message.data
  let keyInfo := extractKeyInfo data
  ¬(data.isCanceled = true ∧ config.posting.includeCancellations = false)
  ∧ (config.posting.onlyWarnings = true → data.isWarning = true ∨ data.isCanceled = true)
  ∧ config.posting.minSeverity ≤ getSeverityLevel data
  ∧ (∀ eq, keyInfo.earthquake = some eq →
      (∀ m, config.filters.minMagnitude = some m → m ≠ 0 → m ≤ eq.magnitude)
      ∧ (∀ dmax, config.filters.maxDepth = some dmax → dmax ≠ 0 → eq.depth ≤ dmax)
      ∧ (∀ allowed, config.filters.allowedRegions = some allowed →
          ∃ code ∈ keyInfo.affectedAreas.regions.map (·.code), code ∈ allowed)
      ∧ (∀ blocked, config.filters.blockedRegions = some blocked →
          ∀ code ∈ keyInfo.affectedAreas.regions.map (·.code), code ∉ blocked))
  ∧ (∀ last, lastPostedEEW = some last → isSignificantUpdate data (some last) = true)

/-- The warned region codes of an alert data body (empty when no intensity
section is present — `extractKeyInfo` defaults `warningRegions` to `[]`). -/
def warnedCodes (d : EEWData) : List String :=
  match d.intensity with
  | some i => warningRegionCodes i
  | none => []

/-- The *from* bound of `maxIntensity`, absent without an intensity section. -/
def maxIntFrom (d : EEWData) : Option String :=
  d.intensity.map (·.forecastMaxInt.from_)

/-- The *to* bound of `maxIntensity`, absent without an intensity section. -/
def maxIntTo (d : EEWData) : Option String :=
  d.intensity.map (·.forecastMaxInt.to_)

/-- C3's claim-side significance predicate, in the claim's own words and with
no both-present guards on the intensity clauses: previous absent; canceled or
warning flag differs; both magnitudes present with |Δ| ≥ 0.2; either bound of
`maxIntensity` differs (presence changes included); or the warned-region code
set of `current` (empty when no intensity) has a code absent from that of
`previous`. -/
def isSignificantClaim (current : EEWData) (previous : Option EEWData) : Bool :=
  match previous with
  | none => true
  | some previous =>
    (current.isCanceled != previous.isCanceled)
    || (current.isWarning != previous.isWarning)
    || (match current.earthquake, previous.earthquake with
        | some ce, some pe =>
          decide ((0.2 : ℚ) ≤ |ce.magnitude.value - pe.magnitude.value|)
        | _, _ => false)
    || (maxIntFrom current != maxIntFrom previous)
    || (maxIntTo current != maxIntTo previous)
    || (warnedCodes current).any (fun code => !(warnedCodes previous).contains code)

/-!
## Concrete inputs used by witnesses and counterexamples
-/

/-- A well-formed inbound envelope (object `data`). -/
def goodJson : Json :=
  .obj [("type", .str "eew"), ("timestamp", .num 1749919000370),
        ("data", .obj [("isLastInfo", .bool false), ("isCanceled", .bool false),
                       ("isWarning", .bool true)])]

/-- A second well-formed inbound envelope. -/
def goodJson2 : Json :=
  .obj [("type", .str "eew"), ("timestamp", .num 1749919000500),
        ("data", .obj [("isLastInfo", .bool true), ("isCanceled", .bool false),
                       ("isWarning", .bool false)])]

/-- An envelope with an unrecognized `type` discriminator. -/
def wrongTypeJson : Json :=
  .obj [("type", .str "quake_info"), ("timestamp", .num 1749919000370),
        ("data", .obj [("isCanceled", .bool false)])]

/-- A recognized-but-incomplete envelope: the `timestamp` field is missing. -/
def missingTimestampJson : Json :=
  .obj [("type", .str "eew"), ("data", .obj [("isCanceled", .bool false)])]

/-- An envelope whose `data` field is a plain JSON-encoded string. -/
def stringDataJson : Json :=
  .obj [("type", .str "eew"), ("timestamp", .num 1), ("data", .str "hello")]

/-- The Encoding-B style payload: a JSON-encoded string carrying an envelope
with a schema marker and a `body` field. -/
def encBPayload : String :=
  "\x7b\"schema\":\"eewbot\",\"body\":\x7b\"isWarning\":true\x7d\x7d"

/-- The re-parsed `body` object the Encoding-B payload would unwrap to. -/
def encBBody : Json := .obj [("isWarning", .bool true)]

/-- An inbound message whose `data` is the Encoding-B string payload (with the
`eewbot` marker field the type guard looks for). -/
def encBMessage : Json :=
  .obj [("type", .str "eew"), ("timestamp", .num 1700000000000),
        ("data", .str encBPayload),
        ("eewbot", .obj [("isWarning", .bool true)])]

/-- The sample warning alert of the repository's fixtures (January 2024 Noto
event): warning, magnitude 5.7, depth 10 km, forecast intensity "5-", one
warned region with code "390". -/
def exampleAlert : EEWData :=
  { isLastInfo := false
    isCanceled := false
    isWarning := true
    zones := some [{ code := "9934", name := "Hokuriku" }]
    prefectures := some [{ code := "9170", name := "Ishikawa" }]
    regions := some [{ code := "390", name := "Ishikawa Noto" }]
    earthquake := some
      { originTime := "2024-01-01T16:10:07+09:00"
        hypocenter :=
          { name := "Noto offshore", depth := { value := 10 }, landOrSea := "sea" }
        magnitude := { value := 5.7 } }
    intensity := some
      { forecastMaxInt := { from_ := "5-", to_ := "5-" }
        regions := [{ code := "390", name := "Ishikawa Noto", isWarning := true
                      forecastMaxInt := { from_ := "5-", to_ := "5-" }
                      condition := some "main shock presumed arrived" }] }
    text := none }

/-- A second alert for queue scenarios: same event, not a warning. -/
def exampleAlert2 : EEWData :=
  { exampleAlert with isWarning := false }

/-- The sample alert wrapped as a message. -/
def exampleMessage : EEWMessage := { timestamp := 1749919000370, data := exampleAlert }

/-- The second alert wrapped as a message. -/
def exampleMessage2 : EEWMessage := { timestamp := 1749919005000, data := exampleAlert2 }

/-- A fresh delivery state (process start). -/
def freshState : PostingState :=
  { lastPostTime := 0, lastPostedEEW := none, postCount := 0, rateLimitQueue := [] }

/-- A permissive posting configuration used by the queue witnesses. -/
def openConfig : PostingConfig :=
  { posting :=
      { enabled := true, minSeverity := 0, onlyWarnings := false
        includeCancellations := true, rateLimitMs := 2000 }
    filters :=
      { minMagnitude := none, maxDepth := none
        allowedRegions := none, blockedRegions := none } }

/-- A delivery state with two pending messages, for the C5 witness. -/
def queueState : PostingState :=
  { lastPostTime := 5000, lastPostedEEW := some exampleAlert, postCount := 1
    rateLimitQueue := [exampleMessage2, exampleMessage] }

/-- C3 counterexample data: an alert with an intensity section (bounds "3",
one warned region "390") whose predecessor has no intensity section, all else
identical. -/
def sigCur : EEWData :=
  { isLastInfo := false
    isCanceled := false
    isWarning := false
    zones := none
    prefectures := none
    regions := none
    earthquake := none
    intensity := some
      { forecastMaxInt := { from_ := "3", to_ := "3" }
        regions := [{ code := "390", name := "Ishikawa Noto", isWarning := true
                      forecastMaxInt := { from_ := "3", to_ := "3" }
                      condition := none }] }
    text := none }

/-- C3 counterexample data: the predecessor, without an intensity section. -/
def sigPrev : EEWData :=
  { sigCur with intensity := none }

/-!
## Parser lemmas and claims C10, C9, C8, C7
-/

theorem invalidStructure_eq_false_iff (v : Json) :
    invalidStructure v = false ↔ validEnvelope v := by
  unfold invalidStructure validEnvelope
  cases h : getField v "type" with
  | none => simp [h]
  | some j => cases j <;> simp [h, and_assoc]

theorem parseLine_value_eq_some_iff (v : Json) :
    parseLine (.value v) = some v ↔ validEnvelope v := by
  rw [← invalidStructure_eq_false_iff]
  unfold parseLine
  cases h : invalidStructure v <;> simp [h]

theorem parseLine_value_eq_none_iff (v : Json) :
    parseLine (.value v) = none ↔ ¬ validEnvelope v := by
  rw [← invalidStructure_eq_false_iff]
  unfold parseLine
  cases h : invalidStructure v <;> simp [h]

/-- Any value returned by `parseLine` is the parsed input itself: the parser
never rewrites, re-parses or projects the message. -/
theorem parseLine_some_eq_input (line : RawLine) (v : Json) :
    parseLine line = some v → line = .value v := by
  intro h
  cases line with
  | blank => exact Option.noConfusion h
  | malformed => exact Option.noConfusion h
  | value w =>
    simp only [parseLine] at h
    cases hc : invalidStructure w with
    | true => rw [hc] at h; simp at h
    | false =>
      rw [hc] at h
      simp at h
      rw [h]

/-- C10: `parseLine` is total (it is a Lean function) and returns `none`
exactly when the trimmed line is empty, the line is not valid JSON, or the
parsed value lacks `type = "eew"` together with truthy `timestamp` and `data`
fields; in every other case it returns the parsed object as-is, with no
further validation of `data` (any truthy `data`, including a plain string, is
accepted — see the witness). -/
theorem c10_parseLine_characterization (line : RawLine) :
    (parseLine line = none ↔
      line = RawLine.blank ∨ line = RawLine.malformed
      ∨ ∃ v, line = RawLine.value v ∧ ¬ validEnvelope v)
    ∧ ∀ v, line = RawLine.value v → validEnvelope v → parseLine line = some v := by
  cases line with
  | blank =>
    refine ⟨by simp [parseLine], ?_⟩
    intro v hv
    exact absurd hv (by simp)
  | malformed =>
    refine ⟨by simp [parseLine], ?_⟩
    intro v hv
    exact absurd hv (by simp)
  | value w =>
    constructor
    · rw [parseLine_value_eq_none_iff]
      simp
    · intro v hv hval
      have hvw : w = v := by injection hv
      subst hvw
      exact (parseLine_value_eq_some_iff w).mpr hval

/-- C10 witness: a message whose `data` field is a plain string is accepted
and returned as-is. -/
theorem c10_witness : parseLine (RawLine.value stringDataJson) = some stringDataJson :=
  (c10_parseLine_characterization (RawLine.value stringDataJson)).2
    stringDataJson rfl ⟨rfl, rfl, rfl⟩

/-- C9: batch ingestion continues past a failed entry: dropping one rejected
line, `parseString` of the whole batch is exactly the concatenation of the
parses of the surrounding entries — no exception escapes (the function is
total) and the remaining N−1 items are all processed. -/
theorem c9_batch_isolation (pre suf : List RawLine) (bad : RawLine)
    (h : parseLine bad = none) :
    parseString (pre ++ bad :: suf) = parseString pre ++ parseString suf := by
  simp [parseString, List.filterMap_append, List.filterMap_cons, h]

/-- C9 witness: a batch holding an unrecognized-type entry between two valid
items yields exactly the two valid canonical alerts. -/
theorem c9_witness :
    parseLine (RawLine.value wrongTypeJson) = none
    ∧ parseString [RawLine.value goodJson, RawLine.value wrongTypeJson,
        RawLine.value goodJson2] = [goodJson, goodJson2] :=
  ⟨rfl,
    (c9_batch_isolation [RawLine.value goodJson] [RawLine.value goodJson2]
      (RawLine.value wrongTypeJson) rfl).trans rfl⟩

/-- C8 counterexample: a malformed line, an envelope missing `timestamp`, and
an envelope with an unrecognized `type` tag all normalize to the same single
rejection value `none` — not three distinguishable results as the claim
states. -/
theorem c8_counterexample :
    parseLine RawLine.malformed = none
    ∧ parseLine (RawLine.value missingTimestampJson) = none
    ∧ parseLine (RawLine.value wrongTypeJson) = none :=
  ⟨rfl, rfl, rfl⟩

/-- C8 amended: normalization failures are *not* distinguished by kind; every
failing input — malformed JSON, incomplete envelope, unrecognized type tag —
yields one and the same undifferentiated rejection (`null`), the classes
being told apart only in log output. -/
theorem c8_amended_uniform_rejection (line : RawLine)
    (h : ∀ v, line = RawLine.value v → ¬ validEnvelope v) :
    parseLine line = none := by
  cases line with
  | blank => rfl
  | malformed => rfl
  | value v => exact (parseLine_value_eq_none_iff v).mpr (h v rfl)

/-- C8 amended witness: the incomplete envelope is rejected with `none`. -/
theorem c8_amended_witness : parseLine (RawLine.value missingTimestampJson) = none :=
  c8_amended_uniform_rejection (RawLine.value missingTimestampJson)
    (fun v hv => by
      injection hv with hv
      subst hv
      exact fun hval => Bool.noConfusion hval.2.1)

/-- C7 counterexample: for a payload whose `data` is a JSON-encoded string
carrying a schema marker and a `body` field, normalization returns the
message as-is — its `data` is still the original string, not the re-parsed
`body` object the claim prescribes (a string is not that object). -/
theorem c7_counterexample :
    parseLine (RawLine.value encBMessage) = some encBMessage
    ∧ getField encBMessage "data" = some (Json.str encBPayload)
    ∧ Json.str encBPayload ≠ encBBody :=
  ⟨rfl, rfl, fun h => Json.noConfusion h⟩

/-- C7 amended: normalization performs no re-parsing of a string `data`
payload: whatever `parseLine` returns is the parsed input itself (`data`
included, unchanged), and enveloped-string inputs are merely *recognized* by
the `hasEEWBotData` guard — `data` is a string and the `eewbot` field is
truthy — with no schema/`body` unwrapping anywhere. -/
theorem c7_amended_no_reparse (line : RawLine) (v : Json)
    (h : parseLine line = some v) :
    line = RawLine.value v
    ∧ (hasEEWBotData v = true ↔
        (match getField v "data" with
         | some (Json.str _) => true
         | _ => false) = true ∧ truthyOpt (getField v "eewbot") = true) :=
  ⟨parseLine_some_eq_input line v h,
    by unfold hasEEWBotData; exact iff_of_eq (Bool.and_eq_true _ _)⟩

/-- C7 amended witness: the Encoding-B message is returned as-is and is
recognized by `hasEEWBotData`. -/
theorem c7_amended_witness :
    RawLine.value encBMessage = RawLine.value encBMessage
    ∧ (hasEEWBotData encBMessage = true ↔
        (match getField encBMessage "data" with
         | some (Json.str _) => true
         | _ => false) = true ∧ truthyOpt (getField encBMessage "eewbot") = true) :=
  c7_amended_no_reparse (RawLine.value encBMessage) encBMessage rfl

/-!
## Severity: claim C2
-/

/-- C2: for every canonical alert (whose intensity *to* bound, if present, is
a valid code), `getSeverityLevel` is exactly 0 when `isCanceled` is true,
regardless of magnitude and intensity; otherwise it is `w * 10 + m` with `w`
the fixed-table weight of the *to* bound (0 for absent intensity) and `m` the
magnitude (0 if absent).  The witness instantiates the claim's example:
intensity "5-" with magnitude 5.7 scores 55.7. -/
theorem c2_severity_formula (d : EEWData) (h : validIntensityTo d = true) :
    getSeverityLevel d =
      if d.isCanceled then 0 else specIntensityWeight d * 10 + specMagnitude d := by
  unfold getSeverityLevel specIntensityWeight specMagnitude
  by_cases hc : d.isCanceled
  · simp [hc]
  · simp only [hc, if_false]
    cases hint : d.intensity with
    | none => rfl
    | some i =>
      unfold validIntensityTo at h
      rw [hint] at h
      have hmem : i.forecastMaxInt.to_ = "2" ∨ i.forecastMaxInt.to_ = "3"
          ∨ i.forecastMaxInt.to_ = "4" ∨ i.forecastMaxInt.to_ = "5-"
          ∨ i.forecastMaxInt.to_ = "5+" ∨ i.forecastMaxInt.to_ = "6-"
          ∨ i.forecastMaxInt.to_ = "6+" ∨ i.forecastMaxInt.to_ = "7" := by
        simpa using h
      rcases hmem with h8 | h8 | h8 | h8 | h8 | h8 | h8 | h8 <;>
        simp [h8, intensityMap]

/-- C2 witness: the sample alert with intensity "5-" and magnitude 5.7 scores
5 * 10 + 5.7 = 55.7 (and is not canceled). -/
theorem c2_witness :
    validIntensityTo exampleAlert = true
    ∧ getSeverityLevel exampleAlert = 55.7 := by
  refine ⟨rfl, (c2_severity_formula exampleAlert rfl).trans ?_⟩
  have h1 : specIntensityWeight exampleAlert = 5 := by decide
  rw [show exampleAlert.isCanceled = false from rfl, h1,
      show specMagnitude exampleAlert = (5.7 : ℚ) from rfl]
  norm_num

/-!
## Delivery queue lemmas and claims C6, C5, C4
-/

/-- Fuel is irrelevant beyond the queue length: the drain loop reaches the
empty queue before exhausting `st.rateLimitQueue.length` units of fuel. -/
theorem runProcessQueue_fuel_ge (sink : EEWMessage → Bool) (rateLimitMs now : Int) :
    ∀ fuel st, st.rateLimitQueue.length ≤ fuel →
      runProcessQueue sink rateLimitMs now fuel st =
        runProcessQueue sink rateLimitMs now st.rateLimitQueue.length st := by
  intro fuel
  induction fuel with
  | zero =>
    intro st h
    have h0 : st.rateLimitQueue.length = 0 := Nat.le_zero.mp h
    rw [h0]
  | succ fuel ih =>
    intro st h
    cases hq : st.rateLimitQueue with
    | nil => simp [runProcessQueue, hq]
    | cons message rest =>
      have hlen : rest.length ≤ fuel := by
        rw [hq] at h; simpa using h
      simp only [runProcessQueue, hq, List.length_cons]
      by_cases hsp : rateLimitMs ≤ now - st.lastPostTime
      · rw [if_pos hsp, if_pos hsp]
        by_cases hs : sink message = true
        · rw [if_pos hs, if_pos hs]
          exact ih _ hlen
        · rw [if_neg hs, if_neg hs]
      · rw [if_neg hsp, if_neg hsp]

/-- The source-shaped equation for `processQueue`: shift the head; if the
spacing is met, hand it to `postEEW` on the shifted state; otherwise unshift
it back to the front. -/
theorem processQueue_eq (sink : EEWMessage → Bool) (rateLimitMs now : Int)
    (st : PostingState) :
    processQueue sink rateLimitMs now st =
      match st.rateLimitQueue with
      | [] => st
      | message :: rest =>
        if rateLimitMs ≤ now - st.lastPostTime then
          (postEEW sink rateLimitMs now message
            { st with rateLimitQueue := rest }).2
        else
          { st with rateLimitQueue := message :: rest } := by
  cases hq : st.rateLimitQueue with
  | nil => simp [processQueue, runProcessQueue, hq]
  | cons message rest =>
    simp only [processQueue, hq, List.length_cons, runProcessQueue, postEEW]
    by_cases hsp : rateLimitMs ≤ now - st.lastPostTime
    · simp only [if_pos hsp]
      by_cases hs : sink message = true
      · simp only [if_pos hs]
      · simp only [if_neg hs]
    · simp only [if_neg hsp]

/-- The source-shaped equation for `postEEW`: on sink success the advanced
state is drained via `processQueue`. -/
theorem postEEW_eq (sink : EEWMessage → Bool) (rateLimitMs now : Int)
    (message : EEWMessage) (st : PostingState) :
    postEEW sink rateLimitMs now message st =
      if sink message then
        (true, processQueue sink rateLimitMs now
          { lastPostTime := now
            lastPostedEEW := some message.data
            postCount := st.postCount + 1
            rateLimitQueue := st.rateLimitQueue })
      else
        (false, st) := rfl

/-- C6: when the sink call fails, `postEEW` returns a non-crashing failure
result (`false`) and the delivery state is unchanged: `lastPostTime`,
`lastPostedEEW` and `postCount` keep their prior values, and the pending
queue is neither corrupted nor is the failed alert requeued. -/
theorem c6_sink_failure_state_unchanged (sink : EEWMessage → Bool)
    (rateLimitMs now : Int) (message : EEWMessage) (st : PostingState)
    (h : sink message = false) :
    postEEW sink rateLimitMs now message st = (false, st) := by
  unfold postEEW
  rw [h]
  simp

/-- C6 witness: a failing sink leaves the fresh state untouched. -/
theorem c6_witness :
    postEEW (fun _ => false) 2000 5000 exampleMessage freshState = (false, freshState) :=
  c6_sink_failure_state_unchanged (fun _ => false) 2000 5000 exampleMessage freshState rfl

/-- C5: the pending queue is processed strictly in arrival order.  A drain
takes exactly the head of `pending`; when the spacing window is still unmet
the drained head is pushed back to the *front* (the queue is exactly
`message :: rest` again, not `rest ++ [message]`), so the requeue never
reorders it relative to the other pending items; and a successful delivery
is what triggers draining one item. -/
theorem c5_fifo_front_requeue (sink : EEWMessage → Bool)
    (rateLimitMs now1 now2 : Int) (st : PostingState)
    (message message0 : EEWMessage) (rest : List EEWMessage)
    (hq : st.rateLimitQueue = message :: rest)
    (hlt : now1 - st.lastPostTime < rateLimitMs)
    (hle : rateLimitMs ≤ now2 - st.lastPostTime)
    (hs : sink message0 = true) :
    processQueue sink rateLimitMs now1 st = { st with rateLimitQueue := message :: rest }
    ∧ processQueue sink rateLimitMs now2 st =
        (postEEW sink rateLimitMs now2 message { st with rateLimitQueue := rest }).2
    ∧ postEEW sink rateLimitMs now1 message0 st =
        (true, processQueue sink rateLimitMs now1
          { lastPostTime := now1
            lastPostedEEW := some message0.data
            postCount := st.postCount + 1
            rateLimitQueue := st.rateLimitQueue }) := by
  refine ⟨?_, ?_, ?_⟩
  · rw [processQueue_eq]
    simp only [hq]
    rw [if_neg (not_le.mpr hlt)]
  · rw [processQueue_eq]
    simp only [hq]
    rw [if_pos hle]
  · rw [postEEW_eq, if_pos hs]

/-- C5 witness: with spacing unmet (1000 < 2000 ms) the queue is unchanged
with its head still in front; with spacing met the head is handed to
`postEEW`; and a successful post drains the advanced state. -/
theorem c5_witness :
    processQueue (fun _ => true) 2000 6000 queueState =
      { queueState with rateLimitQueue := [exampleMessage2, exampleMessage] }
    ∧ processQueue (fun _ => true) 2000 8000 queueState =
        (postEEW (fun _ => true) 2000 8000 exampleMessage2
          { queueState with rateLimitQueue := [exampleMessage] }).2
    ∧ postEEW (fun _ => true) 2000 6000 exampleMessage queueState =
        (true, processQueue (fun _ => true) 2000 6000
          { lastPostTime := 6000
            lastPostedEEW := some exampleMessage.data
            postCount := queueState.postCount + 1
            rateLimitQueue := queueState.rateLimitQueue }) :=
  c5_fifo_front_requeue (fun _ => true) 2000 6000 8000 queueState
    exampleMessage2 exampleMessage [exampleMessage] rfl (by decide) (by decide) rfl

/-- C4: two alerts both passing the policy filter, submitted within
`rateLimitMs` of each other.  The first is attempted immediately (spacing
from the last send already met) and delivered; the second is not delivered
but appended to the tail of the pending queue; a drain while the interval is
still unmet delivers nothing; a drain after the interval has elapsed delivers
the queued alert.  (In the source the drain is the `processQueue` call
triggered by the next successful post.) -/
theorem c4_rate_limit_two_submissions
    (config : PostingConfig) (sink : EEWMessage → Bool) (st0 : PostingState)
    (m1 m2 : EEWMessage) (now1 now2 now3 now4 : Int)
    (hen : config.posting.enabled = true)
    (hq0 : st0.rateLimitQueue = [])
    (hf1 : shouldPost config m1 st0.lastPostedEEW = true)
    (hsp1 : config.posting.rateLimitMs ≤ now1 - st0.lastPostTime)
    (hs1 : sink m1 = true)
    (hf2 : shouldPost config m2 (some m1.data) = true)
    (hclose : now2 - now1 < config.posting.rateLimitMs)
    (hsoon : now3 - now1 < config.posting.rateLimitMs)
    (hlate : config.posting.rateLimitMs ≤ now4 - now1)
    (hs2 : sink m2 = true) :
    processEEW config sink now1 m1 st0 =
      (true, { lastPostTime := now1, lastPostedEEW := some m1.data,
               postCount := st0.postCount + 1, rateLimitQueue := [] })
    ∧ processEEW config sink now2 m2
        { lastPostTime := now1, lastPostedEEW := some m1.data,
          postCount := st0.postCount + 1, rateLimitQueue := [] } =
      (false, { lastPostTime := now1, lastPostedEEW := some m1.data,
                postCount := st0.postCount + 1, rateLimitQueue := [m2] })
    ∧ processQueue sink config.posting.rateLimitMs now3
        { lastPostTime := now1, lastPostedEEW := some m1.data,
          postCount := st0.postCount + 1, rateLimitQueue := [m2] } =
      { lastPostTime := now1, lastPostedEEW := some m1.data,
        postCount := st0.postCount + 1, rateLimitQueue := [m2] }
    ∧ processQueue sink config.posting.rateLimitMs now4
        { lastPostTime := now1, lastPostedEEW := some m1.data,
          postCount := st0.postCount + 1, rateLimitQueue := [m2] } =
      { lastPostTime := now4, lastPostedEEW := some m2.data,
        postCount := st0.postCount + 2, rateLimitQueue := [] } := by
  have hnotlt : ¬(now1 - st0.lastPostTime < config.posting.rateLimitMs) :=
    not_lt.mpr hsp1
  refine ⟨?_, ?_, ?_, ?_⟩
  · simp [processEEW, hen, hf1, hnotlt, postEEW, hs1, hq0, runProcessQueue]
  · simp [processEEW, hen, hf2, hclose]
  · rw [processQueue_eq]
    simp [not_le.mpr hsoon]
  · rw [processQueue_eq]
    simp only [List.length_cons, List.length_nil]
    rw [if_pos hlate]
    simp [postEEW, hs2, runProcessQueue]

/-!
## Policy filter: claim C1 and the `shouldPost` characterization
-/

theorem contains_eq_true_iff_mem (l : List String) (a : String) :
    l.contains a = true ↔ a ∈ l :=
  List.elem_iff

theorem earthquakeFiltered_eq_true_iff (filters : PostingFilters) (keyInfo : KeyInfo) :
    earthquakeFiltered filters keyInfo = true ↔
      ∃ eq, keyInfo.earthquake = some eq
        ∧ ((∃ m, filters.minMagnitude = some m ∧ m ≠ 0 ∧ eq.magnitude < m)
           ∨ (∃ dmax, filters.maxDepth = some dmax ∧ dmax ≠ 0 ∧ dmax < eq.depth)
           ∨ (∃ allowed, filters.allowedRegions = some allowed
               ∧ ∀ code ∈ keyInfo.affectedAreas.regions.map (·.code), code ∉ allowed)
           ∨ (∃ blocked, filters.blockedRegions = some blocked
               ∧ ∃ code ∈ keyInfo.affectedAreas.regions.map (·.code), code ∈ blocked)) := by
  unfold earthquakeFiltered
  cases heq : keyInfo.earthquake with
  | none => simp
  | some eq =>
    cases hm : filters.minMagnitude <;>
      cases hd : filters.maxDepth <;>
      cases ha : filters.allowedRegions <;>
      cases hb : filters.blockedRegions <;>
      simp [Bool.or_eq_true, Bool.and_eq_true, decide_eq_true_eq,
        Bool.not_eq_true', List.any_eq_false, List.any_eq_true,
        contains_eq_true_iff_mem, or_assoc]

/-- The policy filter, characterized: `shouldPost` delivers exactly when the
claim-side predicate `shouldDeliverSpec` holds. -/
theorem shouldPost_eq_true_iff (config : PostingConfig) (message : EEWMessage)
    (lastPostedEEW : Option EEWData) :
    shouldPost config message lastPostedEEW = true ↔
      shouldDeliverSpec config message lastPostedEEW := by
  simp only [shouldPost, shouldDeliverSpec]
  split_ifs with h1 h2 h3 h4
  · rw [Bool.and_eq_true, Bool.not_eq_true'] at h1
    exact iff_of_false (by simp) fun hR => hR.1 h1
  · simp only [Bool.and_eq_true, Bool.not_eq_true'] at h2
    refine iff_of_false (by simp) fun hR => ?_
    rcases hR.2.1 h2.1.1 with hw | hc
    · rw [h2.1.2] at hw; exact Bool.noConfusion hw
    · rw [h2.2] at hc; exact Bool.noConfusion hc
  · exact iff_of_false (by simp) fun hR => absurd hR.2.2.1 (not_le.mpr h3)
  · rw [earthquakeFiltered_eq_true_iff] at h4
    refine iff_of_false (by simp) fun hR => ?_
    obtain ⟨eq, heq, hviol⟩ := h4
    have h4R := hR.2.2.2.1 eq heq
    rcases hviol with ⟨m, hm, hm0, hlt⟩ | ⟨dmax, hd, hd0, hlt⟩
      | ⟨allowed, hal, hnone⟩ | ⟨blocked, hbl, code, hcode, hmem⟩
    · exact absurd (h4R.1 m hm hm0) (not_le.mpr hlt)
    · exact absurd (h4R.2.1 dmax hd hd0) (not_le.mpr hlt)
    · obtain ⟨code, hcode, hca⟩ := h4R.2.2.1 allowed hal
      exact hnone code hcode hca
    · exact h4R.2.2.2 blocked hbl code hcode hmem
  · constructor
    · intro hm
      refine ⟨?_, ?_, not_lt.mp h3, ?_, ?_⟩
      · rw [Bool.and_eq_true, Bool.not_eq_true'] at h1; exact h1
      · intro how
        simp only [Bool.and_eq_true, Bool.not_eq_true'] at h2
        cases hw : message.data.isWarning with
        | true => exact Or.inl rfl
        | false =>
          cases hc : message.data.isCanceled with
          | true => exact Or.inr rfl
          | false => exact absurd ⟨⟨how, hw⟩, hc⟩ h2
      · intro eq heq
        rw [earthquakeFiltered_eq_true_iff] at h4
        refine ⟨?_, ?_, ?_, ?_⟩
        · intro m hm hm0
          by_contra hlt
          exact h4 ⟨eq, heq, Or.inl ⟨m, hm, hm0, not_le.mp hlt⟩⟩
        · intro dmax hd hd0
          by_contra hlt
          exact h4 ⟨eq, heq, Or.inr (Or.inl ⟨dmax, hd, hd0, not_le.mp hlt⟩)⟩
        · intro allowed hal
          by_contra hnone
          push_neg at hnone
          exact h4 ⟨eq, heq, Or.inr (Or.inr (Or.inl ⟨allowed, hal, hnone⟩))⟩
        · intro blocked hbl code hcode hmem
          exact h4 ⟨eq, heq, Or.inr (Or.inr (Or.inr ⟨blocked, hbl, code, hcode, hmem⟩))⟩
      · intro last hlast
        rw [hlast] at hm
        exact hm
    · intro hR
      cases lastPostedEEW with
      | none => rfl
      | some last => exact hR.2.2.2.2 last rfl

/-- C1: `shouldPost` returns a deliver verdict exactly when all the claim's
conditions hold — no cancellation while excluded; warnings-only implies
warning or cancellation; score ≥ `minSeverity` (so an alert below the
threshold is rejected even if `isWarning` is true); configured magnitude,
depth and region filters pass when an earthquake sub-object exists and pass
vacuously when it does not; and the update is significant w.r.t. the
last-delivered alert when one exists. -/
theorem c1_shouldPost_characterization (config : PostingConfig)
    (message : EEWMessage) (lastPostedEEW : Option EEWData) :
    shouldPost config message lastPostedEEW = true ↔
      shouldDeliverSpec config message lastPostedEEW :=
  shouldPost_eq_true_iff config message lastPostedEEW

/-!
## Evaluation lemmas for the C4 witness
-/

theorem severity_exampleAlert : getSeverityLevel exampleAlert = 55.7 := by
  have step : getSeverityLevel exampleAlert =
      (if ("5-" : String) ≠ "" then intensityMap "5-" else 0) * 10 + 5.7 := rfl
  rw [step, if_pos (by decide : ("5-" : String) ≠ ""),
     show intensityMap "5-" = 5 by decide]
  norm_num

theorem severity_exampleAlert2 : getSeverityLevel exampleAlert2 = 55.7 := by
  have step : getSeverityLevel exampleAlert2 =
      (if ("5-" : String) ≠ "" then intensityMap "5-" else 0) * 10 + 5.7 := rfl
  rw [step, if_pos (by decide : ("5-" : String) ≠ ""),
     show intensityMap "5-" = 5 by decide]
  norm_num

/-- The sample alert passes the permissive policy with no last-posted alert. -/
theorem shouldPost_example_first : shouldPost openConfig exampleMessage none = true := by
  rw [shouldPost_eq_true_iff]
  unfold shouldDeliverSpec
  refine ⟨?_, ?_, ?_, ?_, ?_⟩
  · simp [exampleMessage, exampleAlert]
  · simp [openConfig]
  · rw [show exampleMessage.data = exampleAlert from rfl, severity_exampleAlert]
    norm_num [openConfig]
  · intro eq heq
    refine ⟨?_, ?_, ?_, ?_⟩ <;> intro x hx <;> simp [openConfig] at hx
  · intro last hlast
    simp at hlast

/-- The follow-up alert passes the policy against the first one (its warning
flag differs, so the update is significant). -/
theorem shouldPost_example_second :
    shouldPost openConfig exampleMessage2 (some exampleMessage.data) = true := by
  rw [shouldPost_eq_true_iff]
  unfold shouldDeliverSpec
  refine ⟨?_, ?_, ?_, ?_, ?_⟩
  · simp [exampleMessage2, exampleAlert2, exampleAlert]
  · simp [openConfig]
  · rw [show exampleMessage2.data = exampleAlert2 from rfl, severity_exampleAlert2]
    norm_num [openConfig]
  · intro eq heq
    refine ⟨?_, ?_, ?_, ?_⟩ <;> intro x hx <;> simp [openConfig] at hx
  · intro last hlast
    injection hlast with hlast
    subst hlast
    decide

/-- C4 witness: with a 2000 ms interval, the first submission (at 5000) is
delivered immediately, the second (at 6000) is queued at the tail; a drain at
6500 delivers nothing; a drain at 7500 delivers the queued alert. -/
theorem c4_witness :
    processEEW openConfig (fun _ => true) 5000 exampleMessage freshState =
      (true, { lastPostTime := 5000, lastPostedEEW := some exampleAlert,
               postCount := 1, rateLimitQueue := [] })
    ∧ processEEW openConfig (fun _ => true) 6000 exampleMessage2
        { lastPostTime := 5000, lastPostedEEW := some exampleAlert,
          postCount := 1, rateLimitQueue := [] } =
      (false, { lastPostTime := 5000, lastPostedEEW := some exampleAlert,
                postCount := 1, rateLimitQueue := [exampleMessage2] })
    ∧ processQueue (fun _ => true) openConfig.posting.rateLimitMs 6500
        { lastPostTime := 5000, lastPostedEEW := some exampleAlert,
          postCount := 1, rateLimitQueue := [exampleMessage2] } =
      { lastPostTime := 5000, lastPostedEEW := some exampleAlert,
        postCount := 1, rateLimitQueue := [exampleMessage2] }
    ∧ processQueue (fun _ => true) openConfig.posting.rateLimitMs 7500
        { lastPostTime := 5000, lastPostedEEW := some exampleAlert,
          postCount := 1, rateLimitQueue := [exampleMessage2] } =
      { lastPostTime := 7500, lastPostedEEW := some exampleAlert2,
        postCount := 2, rateLimitQueue := [] } :=
  c4_rate_limit_two_submissions openConfig (fun _ => true) freshState
    exampleMessage exampleMessage2 5000 6000 6500 7500
    rfl rfl shouldPost_example_first (by decide) rfl shouldPost_example_second
    (by decide) (by decide) (by decide) rfl

/-!
## Update significance: claim C3 (corrected)
-/

/-- C3 counterexample: `sigCur` carries an intensity section with a warned
region "390" while `sigPrev` (otherwise identical) has none.  The claim's
own condition holds — the warned-region set of the current alert contains a
code absent from the (empty) warned set of the previous one, and the
intensity bounds differ by presence — yet the code skips both clauses when
either side lacks the intensity section and returns false. -/
theorem c3_counterexample :
    isSignificantUpdate sigCur (some sigPrev) = false
    ∧ isSignificantClaim sigCur (some sigPrev) = true := by
  constructor <;> decide

/-- C3 amended: `isSignificantUpdate` returns true exactly when the previous
alert is absent; the canceled or warning flag differs; both alerts carry an
earthquake and the magnitude delta is at least 0.2; or — *only when both
alerts carry an intensity section* — a bound of `forecastMaxInt` differs or a
warned region code of the current alert is missing from the warned set of the
previous one.  (The claim's unguarded intensity clauses are corrected into
both-present-guarded clauses; in particular a delta of exactly 0.2 is
significant and a delta of 0.1 with all else unchanged is not, which the
iff subsumes.) -/
theorem c3_amended_characterization (current : EEWData) (previous : Option EEWData) :
    isSignificantUpdate current previous = true ↔
      previous = none
      ∨ ∃ prev, previous = some prev
        ∧ (current.isCanceled ≠ prev.isCanceled
           ∨ current.isWarning ≠ prev.isWarning
           ∨ (∃ ce pe, current.earthquake = some ce ∧ prev.earthquake = some pe
               ∧ (0.2 : ℚ) ≤ |ce.magnitude.value - pe.magnitude.value|)
           ∨ (∃ ci pi, current.intensity = some ci ∧ prev.intensity = some pi
               ∧ (ci.forecastMaxInt.from_ ≠ pi.forecastMaxInt.from_
                  ∨ ci.forecastMaxInt.to_ ≠ pi.forecastMaxInt.to_
                  ∨ ∃ code ∈ warningRegionCodes ci, code ∉ warningRegionCodes pi))) := by
  cases previous with
  | none => simp [isSignificantUpdate]
  | some prev =>
    simp only [isSignificantUpdate, Option.some.injEq, exists_eq_left',
      reduceCtorEq, false_or]
    split_ifs with h1 h2 h3 h4 h5
    · exact iff_of_true rfl (Or.inl (bne_iff_ne.mp h1))
    · exact iff_of_true rfl (Or.inr (Or.inl (bne_iff_ne.mp h2)))
    · refine iff_of_true rfl (Or.inr (Or.inr (Or.inl ?_)))
      cases hce : current.earthquake with
      | none =>
        cases hpe : prev.earthquake with
        | none => rw [hce, hpe] at h3; simp at h3
        | some pe => rw [hce, hpe] at h3; simp at h3
      | some ce =>
        cases hpe : prev.earthquake with
        | none => rw [hce, hpe] at h3; simp at h3
        | some pe =>
          rw [hce, hpe] at h3
          exact ⟨ce, pe, rfl, rfl, of_decide_eq_true h3⟩
    · refine iff_of_true rfl (Or.inr (Or.inr (Or.inr ?_)))
      cases hci : current.intensity with
      | none =>
        cases hpi : prev.intensity with
        | none => rw [hci, hpi] at h4; simp at h4
        | some pi => rw [hci, hpi] at h4; simp at h4
      | some ci =>
        cases hpi : prev.intensity with
        | none => rw [hci, hpi] at h4; simp at h4
        | some pi =>
          rw [hci, hpi] at h4
          rw [Bool.or_eq_true, bne_iff_ne, bne_iff_ne] at h4
          exact ⟨ci, pi, rfl, rfl, h4.imp (fun h => h) (fun h => Or.inl h)⟩
    · refine iff_of_true rfl (Or.inr (Or.inr (Or.inr ?_)))
      cases hci : current.intensity with
      | none =>
        cases hpi : prev.intensity with
        | none => rw [hci, hpi] at h5; simp at h5
        | some pi => rw [hci, hpi] at h5; simp at h5
      | some ci =>
        cases hpi : prev.intensity with
        | none => rw [hci, hpi] at h5; simp at h5
        | some pi =>
          rw [hci, hpi, List.any_eq_true] at h5
          obtain ⟨code, hcode, hnb⟩ := h5
          rw [Bool.not_eq_true'] at hnb
          refine ⟨ci, pi, rfl, rfl, Or.inr (Or.inr ⟨code, hcode, fun hmem => ?_⟩)⟩
          rw [(contains_eq_true_iff_mem _ _).mpr hmem] at hnb
          exact Bool.noConfusion hnb
    · refine iff_of_false (by simp) ?_
      rintro (hne | hne | ⟨ce, pe, hce, hpe, hge⟩ | ⟨ci, pi, hci, hpi, hdis⟩)
      · exact h1 (bne_iff_ne.mpr hne)
      · exact h2 (bne_iff_ne.mpr hne)
      · rw [hce, hpe] at h3
        exact h3 (decide_eq_true hge)
      · rw [hci, hpi] at h4 h5
        rcases hdis with hne | hne | ⟨code, hcode, hnmem⟩
        · exact h4 (by rw [Bool.or_eq_true, bne_iff_ne]; exact Or.inl hne)
        · exact h4 (by rw [Bool.or_eq_true]; right; rw [bne_iff_ne]; exact hne)
        · refine h5 (List.any_eq_true.mpr ⟨code, hcode, ?_⟩)
          rw [Bool.not_eq_true']
          cases hcb : (warningRegionCodes pi).contains code with
          | false => rfl
          | true => exact absurd ((contains_eq_true_iff_mem _ _).mp hcb) hnmem

end EEW4Reso
